import Mathlib

/-!
Shallow embedding of the smart-parking ESP32 controller
(src/arduino codes/esp_aws_new.ino, src/arduino codes/utils.h,
src/unnamed/part_000).

The embedding models digital levels, the JSON documents built through
ArduinoJson, the telemetry publisher `publishSlotStatus`, the main `loop`
state machine over gates and slots, the connectivity routine `connectAWS`,
and the inbound-command callback `messageHandler`.  Side effects (servo
writes, LED writes, transport publishes, delays) are recorded as explicit
trace events.
-/

namespace SmartParking

/-- A digital input/output level, as read by digitalRead / written by
digitalWrite.  Active-low sensors report LOW when an object is present. -/
inductive Level where
  | LOW
  | HIGH
deriving DecidableEq, Repr

/-- A JSON value, as held by an ArduinoJson document. -/
inductive Json where
  | null
  | bool (b : Bool)
  | num (n : Int)
  | str (s : String)
  | arr (items : List Json)
  | obj (members : List (String × Json))

/-- One character of a serialized JSON string, with the escapes ArduinoJson
emits for quotes, backslashes and control characters. -/
def jsonEscape (c : Char) : String :=
  if c = '"' then "\\\""
  else if c = '\\' then "\\\\"
  else if c = '\n' then "\\n"
  else if c = '\t' then "\\t"
  else if c = '\r' then "\\r"
  else String.singleton c

/-- A JSON string literal: quotes around the escaped characters. -/
def jsonQuote (s : String) : String :=
  "\"" ++ String.join (s.toList.map jsonEscape) ++ "\""

mutual

/-- serializeJson: compact serialization of a document, as ArduinoJson
produces into the char buffer. -/
def Json.serialize : Json → String
  | Json.null => "null"
  | Json.bool b => if b then "true" else "false"
  | Json.num n => toString n
  | Json.str s => jsonQuote s
  | Json.arr items => "[" ++ serializeItems items ++ "]"
  | Json.obj members => "\x7b" ++ serializeMembers members ++ "\x7d"

/-- Comma-separated serialization of array elements. -/
def serializeItems : List Json → String
  | [] => ""
  | [x] => Json.serialize x
  | x :: y :: rest => Json.serialize x ++ "," ++ serializeItems (y :: rest)

/-- Comma-separated serialization of object members. -/
def serializeMembers : List (String × Json) → String
  | [] => ""
  | [(k, v)] => jsonQuote k ++ ":" ++ Json.serialize v
  | (k, v) :: m :: rest =>
      jsonQuote k ++ ":" ++ Json.serialize v ++ "," ++ serializeMembers (m :: rest)

end

/-- Skip JSON whitespace. -/
def skipWs : List Char → List Char
  | [] => []
  | c :: cs => if c = ' ' ∨ c = '\n' ∨ c = '\t' ∨ c = '\r' then skipWs cs else c :: cs

/-- Resolve a backslash escape inside a JSON string. -/
def jsonUnescape (c : Char) : Char :=
  if c = 'n' then '\n'
  else if c = 't' then '\t'
  else if c = 'r' then '\r'
  else c

/-- Parse the body of a JSON string after the opening quote; returns the
decoded characters and the input remaining after the closing quote. -/
def parseStringBody : List Char → Option (List Char × List Char)
  | [] => none
  | c :: cs =>
      if c = '"' then some ([], cs)
      else if c = '\\' then
        match cs with
        | [] => none
        | d :: ds => (parseStringBody ds).map (fun p => (jsonUnescape d :: p.1, p.2))
      else (parseStringBody cs).map (fun p => (c :: p.1, p.2))

/-- Split off a run of leading decimal digits. -/
def takeDigits : List Char → List Char × List Char
  | [] => ([], [])
  | c :: cs =>
      if c.isDigit then
        let p := takeDigits cs
        (c :: p.1, p.2)
      else ([], c :: cs)

/-- Decimal digits to a natural number. -/
def digitsToNat (ds : List Char) : Nat :=
  ds.foldl (fun n c => 10 * n + (c.toNat - 48)) 0

/-- Parse a JSON integer (optional minus sign, then digits). -/
def parseIntLit : List Char → Option (Int × List Char)
  | [] => none
  | c :: cs =>
      if c = '-' then
        match takeDigits cs with
        | ([], _) => none
        | (ds, rest) => some (-(Int.ofNat (digitsToNat ds)), rest)
      else
        match takeDigits (c :: cs) with
        | ([], _) => none
        | (ds, rest) => some (Int.ofNat (digitsToNat ds), rest)

mutual

/-- Recursive-descent parse of one JSON value (fuel-indexed). -/
def parseVal : Nat → List Char → Option (Json × List Char)
  | 0, _ => none
  | fuel + 1, cs =>
      match skipWs cs with
      | [] => none
      | c :: rest =>
          if c = '"' then
            (parseStringBody rest).map (fun p => (Json.str (String.mk p.1), p.2))
          else if c = '[' then
            match skipWs rest with
            | ']' :: r2 => some (Json.arr [], r2)
            | r2 => (parseItems fuel r2).map (fun p => (Json.arr p.1, p.2))
          else if c = '{' then
            match skipWs rest with
            | '}' :: r2 => some (Json.obj [], r2)
            | r2 => (parseMembers fuel r2).map (fun p => (Json.obj p.1, p.2))
          else if c = 't' then
            match rest with
            | 'r' :: 'u' :: 'e' :: r2 => some (Json.bool true, r2)
            | _ => none
          else if c = 'f' then
            match rest with
            | 'a' :: 'l' :: 's' :: 'e' :: r2 => some (Json.bool false, r2)
            | _ => none
          else if c = 'n' then
            match rest with
            | 'u' :: 'l' :: 'l' :: r2 => some (Json.null, r2)
            | _ => none
          else if c = '-' ∨ c.isDigit then
            (parseIntLit (c :: rest)).map (fun p => (Json.num p.1, p.2))
          else none

/-- Parse the elements of a non-empty JSON array up to the closing bracket. -/
def parseItems : Nat → List Char → Option (List Json × List Char)
  | 0, _ => none
  | fuel + 1, cs =>
      match parseVal fuel cs with
      | none => none
      | some (v, rest) =>
          match skipWs rest with
          | ',' :: r2 => (parseItems fuel r2).map (fun p => (v :: p.1, p.2))
          | ']' :: r2 => some ([v], r2)
          | _ => none

/-- Parse the members of a non-empty JSON object up to the closing brace. -/
def parseMembers : Nat → List Char → Option (List (String × Json) × List Char)
  | 0, _ => none
  | fuel + 1, cs =>
      match skipWs cs with
      | '"' :: r1 =>
          match parseStringBody r1 with
          | none => none
          | some (k, r2) =>
              match skipWs r2 with
              | ':' :: r3 =>
                  match parseVal fuel r3 with
                  | none => none
                  | some (v, r4) =>
                      match skipWs r4 with
                      | ',' :: r5 =>
                          (parseMembers fuel r5).map
                            (fun p => ((String.mk k, v) :: p.1, p.2))
                      | '}' :: r5 => some ([(String.mk k, v)], r5)
                      | _ => none
              | _ => none
      | _ => none

end

/-- deserializeJson: decode a complete JSON document from a string; `none`
is a DeserializationError. -/
def deserializeJson (s : String) : Option Json :=
  match parseVal (2 * s.length + 2) s.toList with
  | some (v, rest) => if skipWs rest = [] then some v else none
  | none => none

/-! ## Pin assignments and topics (esp_aws_new.ino, utils.h) -/

def irEntry : Nat := 4
def irSlot1 : Nat := 19
def irSlot2 : Nat := 23
def irExit : Nat := 5
def ledSlot1 : Nat := 22
def ledSlot2 : Nat := 15
def servoEntryPin : Nat := 18
def servoExitPin : Nat := 21

def AWS_IOT_PUBLISH_TOPIC : String := "esp32/SmartParking/status"
def AWS_IOT_SUBSCRIBE_TOPIC : String := "esp32/SmartParking/commands"

/-- An observable side effect of the controller, in program order: delays,
WiFi association start, trust-material installation, broker connect
attempts, topic subscription, the transport poll, sensor reads, servo and
LED commands, invocations of publishSlotStatus, and transport publishes. -/
inductive TraceEvent where
  | delay (ms : Nat)
  | wifiBegin
  | installCA
  | installCert
  | installKey
  | setServer
  | setCallback
  | connectAttempt (ok : Bool)
  | subscribe (topic : String)
  | mqttPoll
  | readSensor (pin : Nat)
  | servoWrite (pin : Nat) (angle : Nat)
  | ledWrite (pin : Nat) (level : Level)
  | publishCall (slotId vehicleId phase : String) (occupied : Bool)
  | wirePublish (topic : String) (payload : String)
deriving DecidableEq, Repr

/-! ## publishSlotStatus -/

/-- The document publishSlotStatus builds: `doc.to<JsonArray>()`, one nested
object with slot_id / vehicleid / phase, and a nested `data` object holding
status and timestamp (`time(nullptr)` at construction). -/
def slotStatusDoc (slotId vehicleId phase : String) (occupied : Bool) (now : Int) : Json :=
  let data := Json.obj
    [("status", Json.str (if occupied then "occupied" else "vacant")),
     ("timestamp", Json.num now)]
  let obj := Json.obj
    [("slot_id", Json.str slotId),
     ("vehicleid", Json.str vehicleId),
     ("phase", Json.str phase),
     ("data", data)]
  Json.arr [obj]

/-- publishSlotStatus: serialize the document into the buffer and, only if
`mqttClient.connected()`, publish the buffer on the status topic.  The
leading `publishCall` event records the invocation itself. -/
def publishSlotStatus (connected : Bool) (now : Int)
    (slotId vehicleId phase : String) (occupied : Bool) : List TraceEvent :=
  let doc := slotStatusDoc slotId vehicleId phase occupied now
  let buffer := Json.serialize doc
  TraceEvent.publishCall slotId vehicleId phase occupied ::
    (if connected then [TraceEvent.wirePublish "esp32/SmartParking/status" buffer] else [])

/-! ## Controller state and the main loop -/

/-- One snapshot of the four IR sensors, read once per cycle. -/
structure Readings where
  entryIR : Level
  exitIR : Level
  slot1IR : Level
  slot2IR : Level
deriving DecidableEq, Repr

/-- The controller's mutable globals: the two gate flags, the two occupancy
flags, and the level last written to each slot LED. -/
structure ControllerState where
  entryGateOpen : Bool
  exitGateOpen : Bool
  slot1Occupied : Bool
  slot2Occupied : Bool
  ledSlot1Level : Level
  ledSlot2Level : Level
deriving DecidableEq, Repr

/-- The environment of one loop iteration: whether mqttClient.connected()
reports true, the clock value, and the sensor snapshot. -/
structure CycleInput where
  connected : Bool
  now : Int
  readings : Readings
deriving DecidableEq, Repr

/-- Globals after setup(): gates closed, slots vacant, both servos written
to 0, both LEDs written LOW. -/
def setupState : ControllerState :=
  { entryGateOpen := false, exitGateOpen := false,
    slot1Occupied := false, slot2Occupied := false,
    ledSlot1Level := Level.LOW, ledSlot2Level := Level.LOW }

/-- One gate-control block of loop(): open the gate (servo to 90) on a LOW
reading while closed, close it (servo to 0) on a HIGH reading while open,
otherwise do nothing. -/
def gateStep (ir : Level) (gateOpen : Bool) (servoPin : Nat) : Bool × List TraceEvent :=
  if ir = Level.LOW ∧ gateOpen = false then
    (true, [TraceEvent.servoWrite servoPin 90])
  else if ir = Level.HIGH ∧ gateOpen = true then
    (false, [TraceEvent.servoWrite servoPin 0])
  else
    (gateOpen, [])

/-- One slot block of loop(): on a LOW reading while vacant, set the LED
HIGH, mark occupied and publish phase "entry"; on a HIGH reading while
occupied, set the LED LOW, mark vacant and publish phase "exit"; otherwise
do nothing. -/
def slotStep (connected : Bool) (now : Int) (ir : Level) (occupied : Bool)
    (ledLevel : Level) (ledPin : Nat) (slotId : String) :
    Bool × Level × List TraceEvent :=
  if ir = Level.LOW ∧ occupied = false then
    (true, Level.HIGH,
      TraceEvent.ledWrite ledPin Level.HIGH ::
        publishSlotStatus connected now slotId "abc-123" "entry" true)
  else if ir = Level.HIGH ∧ occupied = true then
    (false, Level.LOW,
      TraceEvent.ledWrite ledPin Level.LOW ::
        publishSlotStatus connected now slotId "abc-123" "exit" false)
  else
    (occupied, ledLevel, [])

/-- The body of loop() after the connectivity guard: mqttClient.loop(), the
four digitalReads, the two gate blocks, the two slot blocks, delay(200). -/
def loopStep (ci : CycleInput) (s : ControllerState) : ControllerState × List TraceEvent :=
  let r := ci.readings
  let eg := gateStep r.entryIR s.entryGateOpen servoEntryPin
  let xg := gateStep r.exitIR s.exitGateOpen servoExitPin
  let s1 := slotStep ci.connected ci.now r.slot1IR s.slot1Occupied s.ledSlot1Level ledSlot1 "slot1"
  let s2 := slotStep ci.connected ci.now r.slot2IR s.slot2Occupied s.ledSlot2Level ledSlot2 "slot2"
  ({ entryGateOpen := eg.1, exitGateOpen := xg.1,
     slot1Occupied := s1.1, slot2Occupied := s2.1,
     ledSlot1Level := s1.2.1, ledSlot2Level := s2.2.1 },
   TraceEvent.mqttPoll ::
     TraceEvent.readSensor irEntry :: TraceEvent.readSensor irExit ::
     TraceEvent.readSensor irSlot1 :: TraceEvent.readSensor irSlot2 ::
     (eg.2 ++ xg.2 ++ s1.2.2 ++ s2.2.2 ++ [TraceEvent.delay 200]))

/-- Iterated loop bodies over a sequence of cycle inputs, accumulating the
trace in program order. -/
def loopRun (cis : List CycleInput) (s : ControllerState) : ControllerState × List TraceEvent :=
  match cis with
  | [] => (s, [])
  | ci :: rest =>
      let step := loopStep ci s
      let tail := loopRun rest step.1
      (tail.1, step.2 ++ tail.2)

/-! ## connectAWS (src/unnamed/part_000) -/

/-- The transport environment connectAWS runs against: the result of the
i-th WiFi.status() poll and of the i-th mqttClient.connect() attempt. -/
structure Transport where
  wifiStatus : Nat → Bool
  connectResult : Nat → Bool

/-- The WiFi wait loop: while status is not WL_CONNECTED, delay(500) and
poll again.  Fuel-indexed; `none` means the loop had not yet exited within
`fuel` polls (the source loop itself has no exit other than success). -/
def wifiWaitFuel (status : Nat → Bool) : Nat → Nat → Option (List TraceEvent)
  | 0, _ => none
  | fuel + 1, i =>
      if status i then some []
      else (wifiWaitFuel status fuel (i + 1)).map (fun tr => TraceEvent.delay 500 :: tr)

/-- The broker wait loop: while not connected, attempt mqttClient.connect;
on failure delay(1000) and retry.  Fuel-indexed as above. -/
def mqttWaitFuel (result : Nat → Bool) : Nat → Nat → Option (List TraceEvent)
  | 0, _ => none
  | fuel + 1, i =>
      if result i then some [TraceEvent.connectAttempt true]
      else (mqttWaitFuel result fuel (i + 1)).map
        (fun tr => TraceEvent.connectAttempt false :: TraceEvent.delay 1000 :: tr)

/-- connectAWS: WiFi.begin, the WiFi wait loop, installation of the CA
certificate, device certificate and private key, setServer, setCallback,
the broker wait loop, then subscribe to the command topic. -/
def connectAWS (t : Transport) (fuel : Nat) : Option (List TraceEvent) :=
  match wifiWaitFuel t.wifiStatus fuel 0 with
  | none => none
  | some wtr =>
      match mqttWaitFuel t.connectResult fuel 0 with
      | none => none
      | some mtr =>
          some (TraceEvent.wifiBegin :: wtr ++
            TraceEvent.installCA :: TraceEvent.installCert :: TraceEvent.installKey ::
            TraceEvent.setServer :: TraceEvent.setCallback :: mtr ++
            [TraceEvent.subscribe AWS_IOT_SUBSCRIBE_TOPIC])

/-- One full iteration of loop(): if mqttClient.connected() is false the
whole connectAWS protocol runs first, then the loop body. -/
def loopCycle (t : Transport) (fuel : Nat) (ci : CycleInput) (s : ControllerState) :
    Option (ControllerState × List TraceEvent) :=
  let body := loopStep ci s
  if ci.connected then some body
  else (connectAWS t fuel).map (fun ctr => (body.1, ctr ++ body.2))

/-! ## messageHandler (src/unnamed/part_000) -/

/-- The state messageHandler can reach: the controller globals and the
serial monitor log. -/
structure SystemState where
  ctrl : ControllerState
  serial : List String
deriving DecidableEq, Repr

/-- The byte-accumulation for-loop at the top of messageHandler. -/
def payloadToString (payload : List Char) : String :=
  payload.foldl (fun m c => m.push c) ""

/-- `doc[key]` on a deserialized document: the member's value when the
document is an object containing the key, else null. -/
def jsonMember (j : Json) (key : String) : Option Json :=
  match j with
  | Json.obj members => members.lookup key
  | _ => none

/-- `const char* cmd = doc["message"]`: the string value of the `message`
member, or null when the member is absent or not a string. -/
def docMessageString (j : Json) : Option String :=
  match jsonMember j "message" with
  | some (Json.str s) => some s
  | _ => none

/-- messageHandler: accumulate the payload bytes, log topic and payload,
deserialize; on success extract `doc["message"]`, log it and reach the
command extension point (the result's `some cmd`); on a deserialization
error fall through with no dispatch (the result's `none`). -/
def messageHandler (st : SystemState) (topic : String) (payload : List Char) :
    SystemState × Option (Option String) :=
  let message := payloadToString payload
  let serial1 := st.serial ++
    ["📩 Incoming message on topic: " ++ topic, "📨 Payload: " ++ message]
  match deserializeJson message with
  | some doc =>
      let cmd := docMessageString doc
      ({ st with serial := serial1 ++ ["🧠 Command: " ++ cmd.getD ""] }, some cmd)
  | none =>
      ({ st with serial := serial1 }, none)

/-! ## Trace projections and specification-side machines -/

/-- The angles written to one servo pin, in order, within a trace. -/
def servoCmdsOn (pin : Nat) (tr : List TraceEvent) : List Nat :=
  tr.filterMap fun e =>
    match e with
    | TraceEvent.servoWrite p a => if p = pin then some a else none
    | _ => none

/-- The (phase, occupied) arguments of the publishSlotStatus invocations for
one slot id, in order, within a trace. -/
def publishCallsFor (slotId : String) (tr : List TraceEvent) : List (String × Bool) :=
  tr.filterMap fun e =>
    match e with
    | TraceEvent.publishCall sid _ ph oc => if sid = slotId then some (ph, oc) else none
    | _ => none

/-- The (topic, payload) pairs handed to the transport's publish, in order,
within a trace. -/
def wirePublishes (tr : List TraceEvent) : List (String × String) :=
  tr.filterMap fun e =>
    match e with
    | TraceEvent.wirePublish t p => some (t, p)
    | _ => none

/-- How many positions of a boolean sequence differ from their predecessor
(the first position compared against `init`). -/
def countChanges (init : Bool) : List Bool → Nat
  | [] => 0
  | b :: bs => (if b = init then 0 else 1) + countChanges b bs

/-- Specification-side gate machine, following the spec's words: the state
tracks the last active reading, a servo command (90 on an active-edge while
closed, 0 on an inactive-edge while open) is issued exactly when the state
changes, and an unchanged reading issues nothing. -/
def gateSpec (gateOpen : Bool) : List Level → Bool × List Nat
  | [] => (gateOpen, [])
  | ir :: rest =>
      let active := decide (ir = Level.LOW)
      let tail := gateSpec active rest
      if active = gateOpen then tail
      else (tail.1, (if active then 90 else 0) :: tail.2)

/-- Specification-side slot machine, following the spec's words: one
(phase, occupied) event exactly per occupancy change — ("entry", true) on a
Vacant-to-Occupied edge, ("exit", false) on an Occupied-to-Vacant edge —
and no event on an unchanged reading. -/
def slotSpec (occupied : Bool) : List Level → Bool × List (String × Bool)
  | [] => (occupied, [])
  | ir :: rest =>
      let active := decide (ir = Level.LOW)
      let tail := slotSpec active rest
      if active = occupied then tail
      else (tail.1, (if active then ("entry", true) else ("exit", false)) :: tail.2)

/-- The slot-indicator invariant: each slot's LED output is HIGH exactly
when its occupancy flag is set. -/
def ledMatches (s : ControllerState) : Prop :=
  (s.ledSlot1Level = Level.HIGH ↔ s.slot1Occupied = true)
  ∧ (s.ledSlot2Level = Level.HIGH ↔ s.slot2Occupied = true)

instance (s : ControllerState) : Decidable (ledMatches s) := by
  unfold ledMatches; infer_instance

end SmartParking

namespace SmartParking

/-! ## C1, C6, C8: the telemetry publisher -/

/-- C1: publishSlotStatus hands the payload to the transport's publish if
and only if the session reports connected at the time of the call; when it
is not connected the invocation leaves only the call itself in the trace —
no buffering, no retry, no other effect. -/
theorem publish_gated_on_connection (c : Bool) (now : Int)
    (sid vid ph : String) (oc : Bool) :
    (wirePublishes (publishSlotStatus c now sid vid ph oc) ≠ [] ↔ c = true)
    ∧ publishSlotStatus false now sid vid ph oc =
        [TraceEvent.publishCall sid vid ph oc] := by
  cases c <;> simp [publishSlotStatus, wirePublishes]

/-- C6: every payload publishSlotStatus puts on the wire goes to the status
topic and is the serialization of a JSON array holding exactly one object
with fields slot_id, vehicleid, phase and a nested data object whose status
is "occupied" when the occupied argument is true and "vacant" otherwise and
whose timestamp is the clock value at construction time. -/
theorem status_payload_schema (c : Bool) (now : Int)
    (sid vid ph : String) (oc : Bool) :
    wirePublishes (publishSlotStatus c now sid vid ph oc) =
      if c then
        [("esp32/SmartParking/status",
          Json.serialize (Json.arr [Json.obj
            [("slot_id", Json.str sid),
             ("vehicleid", Json.str vid),
             ("phase", Json.str ph),
             ("data", Json.obj
               [("status", Json.str (if oc then "occupied" else "vacant")),
                ("timestamp", Json.num now)])]]))]
      else [] := by
  cases c <;> simp [publishSlotStatus, wirePublishes, slotStatusDoc]

/-- C8: encoding the Event slot_id="slot1", vehicle_id="abc-123",
phase="entry", occupied=true, timestamp=1700000000 with the publisher's
wire encoding and decoding the produced payload yields a structurally
identical document. -/
theorem event_roundtrip :
    deserializeJson (Json.serialize (slotStatusDoc "slot1" "abc-123" "entry" true 1700000000)) =
      some (slotStatusDoc "slot1" "abc-123" "entry" true 1700000000) := by
  rfl

/-! ## Helper lemmas about the loop body -/

lemma servoCmdsOn_append (pin : Nat) (a b : List TraceEvent) :
    servoCmdsOn pin (a ++ b) = servoCmdsOn pin a ++ servoCmdsOn pin b := by
  simp [servoCmdsOn]

lemma publishCallsFor_append (sid : String) (a b : List TraceEvent) :
    publishCallsFor sid (a ++ b) = publishCallsFor sid a ++ publishCallsFor sid b := by
  simp [publishCallsFor]

@[simp] lemma servoCmdsOn_nil (pin : Nat) : servoCmdsOn pin [] = [] := rfl

@[simp] lemma servoCmdsOn_poll (pin : Nat) (tr : List TraceEvent) :
    servoCmdsOn pin (TraceEvent.mqttPoll :: tr) = servoCmdsOn pin tr := rfl

@[simp] lemma servoCmdsOn_read (pin p : Nat) (tr : List TraceEvent) :
    servoCmdsOn pin (TraceEvent.readSensor p :: tr) = servoCmdsOn pin tr := rfl

@[simp] lemma servoCmdsOn_delay (pin ms : Nat) (tr : List TraceEvent) :
    servoCmdsOn pin (TraceEvent.delay ms :: tr) = servoCmdsOn pin tr := rfl

@[simp] lemma servoCmdsOn_led (pin p : Nat) (lv : Level) (tr : List TraceEvent) :
    servoCmdsOn pin (TraceEvent.ledWrite p lv :: tr) = servoCmdsOn pin tr := rfl

@[simp] lemma servoCmdsOn_call (pin : Nat) (sid vid ph : String) (oc : Bool)
    (tr : List TraceEvent) :
    servoCmdsOn pin (TraceEvent.publishCall sid vid ph oc :: tr) = servoCmdsOn pin tr := rfl

@[simp] lemma servoCmdsOn_wire (pin : Nat) (t p : String) (tr : List TraceEvent) :
    servoCmdsOn pin (TraceEvent.wirePublish t p :: tr) = servoCmdsOn pin tr := rfl

@[simp] lemma servoCmdsOn_servo (pin p a : Nat) (tr : List TraceEvent) :
    servoCmdsOn pin (TraceEvent.servoWrite p a :: tr) =
      (if p = pin then [a] else []) ++ servoCmdsOn pin tr := by
  by_cases h : p = pin <;> simp [servoCmdsOn, List.filterMap_cons, h]

@[simp] lemma publishCallsFor_nil (sid : String) : publishCallsFor sid [] = [] := rfl

@[simp] lemma publishCallsFor_poll (sid : String) (tr : List TraceEvent) :
    publishCallsFor sid (TraceEvent.mqttPoll :: tr) = publishCallsFor sid tr := rfl

@[simp] lemma publishCallsFor_read (sid : String) (p : Nat) (tr : List TraceEvent) :
    publishCallsFor sid (TraceEvent.readSensor p :: tr) = publishCallsFor sid tr := rfl

@[simp] lemma publishCallsFor_delay (sid : String) (ms : Nat) (tr : List TraceEvent) :
    publishCallsFor sid (TraceEvent.delay ms :: tr) = publishCallsFor sid tr := rfl

@[simp] lemma publishCallsFor_led (sid : String) (p : Nat) (lv : Level) (tr : List TraceEvent) :
    publishCallsFor sid (TraceEvent.ledWrite p lv :: tr) = publishCallsFor sid tr := rfl

@[simp] lemma publishCallsFor_servo (sid : String) (p a : Nat) (tr : List TraceEvent) :
    publishCallsFor sid (TraceEvent.servoWrite p a :: tr) = publishCallsFor sid tr := rfl

@[simp] lemma publishCallsFor_wire (sid t p : String) (tr : List TraceEvent) :
    publishCallsFor sid (TraceEvent.wirePublish t p :: tr) = publishCallsFor sid tr := rfl

@[simp] lemma publishCallsFor_call (sid sid' vid ph : String) (oc : Bool)
    (tr : List TraceEvent) :
    publishCallsFor sid (TraceEvent.publishCall sid' vid ph oc :: tr) =
      (if sid' = sid then [(ph, oc)] else []) ++ publishCallsFor sid tr := by
  by_cases h : sid' = sid <;> simp [publishCallsFor, List.filterMap_cons, h]

lemma gateStep_state (ir : Level) (g : Bool) (pin : Nat) :
    (gateStep ir g pin).1 = decide (ir = Level.LOW) := by
  cases ir <;> cases g <;> simp [gateStep]

lemma gateStep_cmds_self (ir : Level) (g : Bool) (pin : Nat) :
    servoCmdsOn pin (gateStep ir g pin).2 =
      if decide (ir = Level.LOW) = g then []
      else [if ir = Level.LOW then 90 else 0] := by
  cases ir <;> cases g <;> simp [gateStep, servoCmdsOn]

lemma gateStep_cmds_other (ir : Level) (g : Bool) (pin p : Nat) (h : p ≠ pin) :
    servoCmdsOn pin (gateStep ir g p).2 = [] := by
  cases ir <;> cases g <;> simp [gateStep, servoCmdsOn, h]

lemma gateStep_no_publish (sid : String) (ir : Level) (g : Bool) (p : Nat) :
    publishCallsFor sid (gateStep ir g p).2 = [] := by
  cases ir <;> cases g <;> simp [gateStep, publishCallsFor]

lemma slotStep_no_servo (pin : Nat) (c : Bool) (now : Int) (ir : Level) (occ : Bool)
    (led : Level) (lp : Nat) (sid : String) :
    servoCmdsOn pin (slotStep c now ir occ led lp sid).2.2 = [] := by
  cases ir <;> cases occ <;> cases c <;>
    simp [slotStep, publishSlotStatus, servoCmdsOn]

lemma slotStep_state (c : Bool) (now : Int) (ir : Level) (occ : Bool)
    (led : Level) (lp : Nat) (sid : String) :
    (slotStep c now ir occ led lp sid).1 = decide (ir = Level.LOW) := by
  cases ir <;> cases occ <;> simp [slotStep]

lemma slotStep_calls_self (c : Bool) (now : Int) (ir : Level) (occ : Bool)
    (led : Level) (lp : Nat) (sid : String) :
    publishCallsFor sid (slotStep c now ir occ led lp sid).2.2 =
      if decide (ir = Level.LOW) = occ then []
      else [if ir = Level.LOW then ("entry", true) else ("exit", false)] := by
  cases ir <;> cases occ <;> cases c <;>
    simp [slotStep, publishSlotStatus, publishCallsFor]

lemma slotStep_calls_other (c : Bool) (now : Int) (ir : Level) (occ : Bool)
    (led : Level) (lp : Nat) (sid sid' : String) (h : sid' ≠ sid) :
    publishCallsFor sid (slotStep c now ir occ led lp sid').2.2 = [] := by
  cases ir <;> cases occ <;> cases c <;>
    simp [slotStep, publishSlotStatus, publishCallsFor, h]

lemma loopStep_state_entry (ci : CycleInput) (s : ControllerState) :
    (loopStep ci s).1.entryGateOpen =
      (gateStep ci.readings.entryIR s.entryGateOpen servoEntryPin).1 := rfl

lemma loopStep_state_exit (ci : CycleInput) (s : ControllerState) :
    (loopStep ci s).1.exitGateOpen =
      (gateStep ci.readings.exitIR s.exitGateOpen servoExitPin).1 := rfl

lemma loopStep_state_slot1 (ci : CycleInput) (s : ControllerState) :
    (loopStep ci s).1.slot1Occupied =
      (slotStep ci.connected ci.now ci.readings.slot1IR s.slot1Occupied
        s.ledSlot1Level ledSlot1 "slot1").1 := rfl

lemma loopStep_state_slot2 (ci : CycleInput) (s : ControllerState) :
    (loopStep ci s).1.slot2Occupied =
      (slotStep ci.connected ci.now ci.readings.slot2IR s.slot2Occupied
        s.ledSlot2Level ledSlot2 "slot2").1 := rfl

lemma loopStep_entry_servo (ci : CycleInput) (s : ControllerState) :
    servoCmdsOn servoEntryPin (loopStep ci s).2 =
      servoCmdsOn servoEntryPin
        (gateStep ci.readings.entryIR s.entryGateOpen servoEntryPin).2 := by
  have hx : servoExitPin ≠ servoEntryPin := by decide
  simp only [loopStep]
  simp [servoCmdsOn_append, gateStep_cmds_other _ _ _ _ hx, slotStep_no_servo]

lemma loopStep_exit_servo (ci : CycleInput) (s : ControllerState) :
    servoCmdsOn servoExitPin (loopStep ci s).2 =
      servoCmdsOn servoExitPin
        (gateStep ci.readings.exitIR s.exitGateOpen servoExitPin).2 := by
  have hx : servoEntryPin ≠ servoExitPin := by decide
  simp only [loopStep]
  simp [servoCmdsOn_append, gateStep_cmds_other _ _ _ _ hx, slotStep_no_servo]

lemma loopStep_slot1_calls (ci : CycleInput) (s : ControllerState) :
    publishCallsFor "slot1" (loopStep ci s).2 =
      publishCallsFor "slot1"
        (slotStep ci.connected ci.now ci.readings.slot1IR s.slot1Occupied
          s.ledSlot1Level ledSlot1 "slot1").2.2 := by
  have hx : ("slot2" : String) ≠ "slot1" := by decide
  simp only [loopStep]
  simp [publishCallsFor_append, gateStep_no_publish,
    slotStep_calls_other _ _ _ _ _ _ _ _ hx]

lemma loopStep_slot2_calls (ci : CycleInput) (s : ControllerState) :
    publishCallsFor "slot2" (loopStep ci s).2 =
      publishCallsFor "slot2"
        (slotStep ci.connected ci.now ci.readings.slot2IR s.slot2Occupied
          s.ledSlot2Level ledSlot2 "slot2").2.2 := by
  have hx : ("slot1" : String) ≠ "slot2" := by decide
  simp only [loopStep]
  simp [publishCallsFor_append, gateStep_no_publish,
    slotStep_calls_other _ _ _ _ _ _ _ _ hx]

lemma loopRun_nil (s : ControllerState) : loopRun [] s = (s, []) := rfl

lemma loopRun_cons (ci : CycleInput) (rest : List CycleInput) (s : ControllerState) :
    loopRun (ci :: rest) s =
      ((loopRun rest (loopStep ci s).1).1,
       (loopStep ci s).2 ++ (loopRun rest (loopStep ci s).1).2) := rfl

lemma loopStep_entry_open (ci : CycleInput) (s : ControllerState) :
    (loopStep ci s).1.entryGateOpen = decide (ci.readings.entryIR = Level.LOW) := by
  rw [loopStep_state_entry, gateStep_state]

lemma loopStep_exit_open (ci : CycleInput) (s : ControllerState) :
    (loopStep ci s).1.exitGateOpen = decide (ci.readings.exitIR = Level.LOW) := by
  rw [loopStep_state_exit, gateStep_state]

lemma loopStep_slot1_occ (ci : CycleInput) (s : ControllerState) :
    (loopStep ci s).1.slot1Occupied = decide (ci.readings.slot1IR = Level.LOW) := by
  rw [loopStep_state_slot1, slotStep_state]

lemma loopStep_slot2_occ (ci : CycleInput) (s : ControllerState) :
    (loopStep ci s).1.slot2Occupied = decide (ci.readings.slot2IR = Level.LOW) := by
  rw [loopStep_state_slot2, slotStep_state]

lemma loopRun_entry_gate (cis : List CycleInput) (s : ControllerState) :
    servoCmdsOn servoEntryPin (loopRun cis s).2 =
        (gateSpec s.entryGateOpen (cis.map fun ci => ci.readings.entryIR)).2
      ∧ (loopRun cis s).1.entryGateOpen =
        (gateSpec s.entryGateOpen (cis.map fun ci => ci.readings.entryIR)).1 := by
  induction cis generalizing s with
  | nil => simp [loopRun_nil, gateSpec]
  | cons ci rest ih =>
      obtain ⟨ih1, ih2⟩ := ih (loopStep ci s).1
      rw [loopStep_entry_open] at ih1 ih2
      constructor
      · rw [loopRun_cons]
        simp only [List.map_cons]
        rw [servoCmdsOn_append, loopStep_entry_servo, gateStep_cmds_self, ih1]
        by_cases h : decide (ci.readings.entryIR = Level.LOW) = s.entryGateOpen
        · simp [gateSpec, h]
        · simp [gateSpec, h]
      · rw [loopRun_cons]
        simp only [List.map_cons]
        rw [ih2]
        by_cases h : decide (ci.readings.entryIR = Level.LOW) = s.entryGateOpen
        · simp [gateSpec, h]
        · simp [gateSpec, h]

lemma loopRun_exit_gate (cis : List CycleInput) (s : ControllerState) :
    servoCmdsOn servoExitPin (loopRun cis s).2 =
        (gateSpec s.exitGateOpen (cis.map fun ci => ci.readings.exitIR)).2
      ∧ (loopRun cis s).1.exitGateOpen =
        (gateSpec s.exitGateOpen (cis.map fun ci => ci.readings.exitIR)).1 := by
  induction cis generalizing s with
  | nil => simp [loopRun_nil, gateSpec]
  | cons ci rest ih =>
      obtain ⟨ih1, ih2⟩ := ih (loopStep ci s).1
      rw [loopStep_exit_open] at ih1 ih2
      constructor
      · rw [loopRun_cons]
        simp only [List.map_cons]
        rw [servoCmdsOn_append, loopStep_exit_servo, gateStep_cmds_self, ih1]
        by_cases h : decide (ci.readings.exitIR = Level.LOW) = s.exitGateOpen
        · simp [gateSpec, h]
        · simp [gateSpec, h]
      · rw [loopRun_cons]
        simp only [List.map_cons]
        rw [ih2]
        by_cases h : decide (ci.readings.exitIR = Level.LOW) = s.exitGateOpen
        · simp [gateSpec, h]
        · simp [gateSpec, h]

lemma loopRun_slot1 (cis : List CycleInput) (s : ControllerState) :
    publishCallsFor "slot1" (loopRun cis s).2 =
        (slotSpec s.slot1Occupied (cis.map fun ci => ci.readings.slot1IR)).2
      ∧ (loopRun cis s).1.slot1Occupied =
        (slotSpec s.slot1Occupied (cis.map fun ci => ci.readings.slot1IR)).1 := by
  induction cis generalizing s with
  | nil => simp [loopRun_nil, slotSpec]
  | cons ci rest ih =>
      obtain ⟨ih1, ih2⟩ := ih (loopStep ci s).1
      rw [loopStep_slot1_occ] at ih1 ih2
      constructor
      · rw [loopRun_cons]
        simp only [List.map_cons]
        rw [publishCallsFor_append, loopStep_slot1_calls, slotStep_calls_self, ih1]
        by_cases h : decide (ci.readings.slot1IR = Level.LOW) = s.slot1Occupied
        · simp [slotSpec, h]
        · simp [slotSpec, h]
      · rw [loopRun_cons]
        simp only [List.map_cons]
        rw [ih2]
        by_cases h : decide (ci.readings.slot1IR = Level.LOW) = s.slot1Occupied
        · simp [slotSpec, h]
        · simp [slotSpec, h]

lemma loopRun_slot2 (cis : List CycleInput) (s : ControllerState) :
    publishCallsFor "slot2" (loopRun cis s).2 =
        (slotSpec s.slot2Occupied (cis.map fun ci => ci.readings.slot2IR)).2
      ∧ (loopRun cis s).1.slot2Occupied =
        (slotSpec s.slot2Occupied (cis.map fun ci => ci.readings.slot2IR)).1 := by
  induction cis generalizing s with
  | nil => simp [loopRun_nil, slotSpec]
  | cons ci rest ih =>
      obtain ⟨ih1, ih2⟩ := ih (loopStep ci s).1
      rw [loopStep_slot2_occ] at ih1 ih2
      constructor
      · rw [loopRun_cons]
        simp only [List.map_cons]
        rw [publishCallsFor_append, loopStep_slot2_calls, slotStep_calls_self, ih1]
        by_cases h : decide (ci.readings.slot2IR = Level.LOW) = s.slot2Occupied
        · simp [slotSpec, h]
        · simp [slotSpec, h]
      · rw [loopRun_cons]
        simp only [List.map_cons]
        rw [ih2]
        by_cases h : decide (ci.readings.slot2IR = Level.LOW) = s.slot2Occupied
        · simp [slotSpec, h]
        · simp [slotSpec, h]

lemma gateSpec_length (g : Bool) (irs : List Level) :
    (gateSpec g irs).2.length =
      countChanges g (irs.map fun ir => decide (ir = Level.LOW)) := by
  induction irs generalizing g with
  | nil => simp [gateSpec, countChanges]
  | cons ir rest ih =>
      by_cases h : decide (ir = Level.LOW) = g <;>
        simp [gateSpec, countChanges, h, ih, Nat.add_comm]

lemma slotSpec_length (occ : Bool) (irs : List Level) :
    (slotSpec occ irs).2.length =
      countChanges occ (irs.map fun ir => decide (ir = Level.LOW)) := by
  induction irs generalizing occ with
  | nil => simp [slotSpec, countChanges]
  | cons ir rest ih =>
      by_cases h : decide (ir = Level.LOW) = occ <;>
        simp [slotSpec, countChanges, h, ih, Nat.add_comm]

lemma gateStep_idem (ir : Level) (g : Bool) (pin : Nat) :
    gateStep ir (gateStep ir g pin).1 pin = ((gateStep ir g pin).1, []) := by
  cases ir <;> cases g <;> simp [gateStep]

lemma slotStep_idem (c c' : Bool) (n n' : Int) (ir : Level) (occ : Bool)
    (led : Level) (lp : Nat) (sid : String) :
    slotStep c' n' ir (slotStep c n ir occ led lp sid).1
        (slotStep c n ir occ led lp sid).2.1 lp sid =
      ((slotStep c n ir occ led lp sid).1, (slotStep c n ir occ led lp sid).2.1, []) := by
  cases ir <;> cases occ <;> simp [slotStep]

lemma loopStep_stable (c c' : Bool) (n n' : Int) (r : Readings) (s : ControllerState) :
    loopStep ⟨c', n', r⟩ (loopStep ⟨c, n, r⟩ s).1 =
      ((loopStep ⟨c, n, r⟩ s).1,
       [TraceEvent.mqttPoll, TraceEvent.readSensor irEntry, TraceEvent.readSensor irExit,
        TraceEvent.readSensor irSlot1, TraceEvent.readSensor irSlot2,
        TraceEvent.delay 200]) := by
  simp [loopStep, gateStep_idem, slotStep_idem]

lemma slotStep_preserves (c : Bool) (n : Int) (ir : Level) (occ : Bool)
    (led : Level) (lp : Nat) (sid : String) (h : led = Level.HIGH ↔ occ = true) :
    ((slotStep c n ir occ led lp sid).2.1 = Level.HIGH ↔
      (slotStep c n ir occ led lp sid).1 = true) := by
  cases ir <;> cases occ <;> simp [slotStep] <;> simpa using h

lemma loopStep_preserves_led (ci : CycleInput) (s : ControllerState)
    (h : ledMatches s) : ledMatches (loopStep ci s).1 := by
  obtain ⟨h1, h2⟩ := h
  exact ⟨slotStep_preserves _ _ _ _ _ _ _ h1, slotStep_preserves _ _ _ _ _ _ _ h2⟩

lemma loopRun_preserves_led (cis : List CycleInput) (s : ControllerState)
    (h : ledMatches s) : ledMatches (loopRun cis s).1 := by
  induction cis generalizing s with
  | nil => exact h
  | cons ci rest ih =>
      rw [loopRun_cons]
      exact ih _ (loopStep_preserves_led ci s h)

/-! ## C2, C3, C9: the loop state machines -/

/-- C2: over every sequence of per-cycle readings, each gate's servo
commands are exactly those of the spec machine that opens (angle 90) once
per true active-edge and closes (angle 0) once per true inactive-edge, the
gate flags track that machine's state, the number of commands equals the
number of state changes, and a repeated identical reading produces no
further transition or actuator command at all. -/
theorem gate_edge_transitions :
    (∀ (cis : List CycleInput) (s : ControllerState),
      servoCmdsOn servoEntryPin (loopRun cis s).2 =
          (gateSpec s.entryGateOpen (cis.map fun ci => ci.readings.entryIR)).2
        ∧ servoCmdsOn servoExitPin (loopRun cis s).2 =
          (gateSpec s.exitGateOpen (cis.map fun ci => ci.readings.exitIR)).2
        ∧ (loopRun cis s).1.entryGateOpen =
          (gateSpec s.entryGateOpen (cis.map fun ci => ci.readings.entryIR)).1
        ∧ (loopRun cis s).1.exitGateOpen =
          (gateSpec s.exitGateOpen (cis.map fun ci => ci.readings.exitIR)).1
        ∧ (servoCmdsOn servoEntryPin (loopRun cis s).2).length =
          countChanges s.entryGateOpen
            (cis.map fun ci => decide (ci.readings.entryIR = Level.LOW))
        ∧ (servoCmdsOn servoExitPin (loopRun cis s).2).length =
          countChanges s.exitGateOpen
            (cis.map fun ci => decide (ci.readings.exitIR = Level.LOW)))
    ∧ (∀ (c c' : Bool) (n n' : Int) (r : Readings) (s : ControllerState),
        loopStep ⟨c', n', r⟩ (loopStep ⟨c, n, r⟩ s).1 =
          ((loopStep ⟨c, n, r⟩ s).1,
           [TraceEvent.mqttPoll, TraceEvent.readSensor irEntry,
            TraceEvent.readSensor irExit, TraceEvent.readSensor irSlot1,
            TraceEvent.readSensor irSlot2, TraceEvent.delay 200])) := by
  refine ⟨fun cis s => ?_, loopStep_stable⟩
  obtain ⟨he1, he2⟩ := loopRun_entry_gate cis s
  obtain ⟨hx1, hx2⟩ := loopRun_exit_gate cis s
  refine ⟨he1, hx1, he2, hx2, ?_, ?_⟩
  · rw [he1, gateSpec_length, List.map_map]; rfl
  · rw [hx1, gateSpec_length, List.map_map]; rfl

/-- C3: over every sequence of per-cycle readings, each slot's
publishSlotStatus invocations are exactly those of the spec machine that
emits ("entry", true) once per Vacant-to-Occupied edge and ("exit", false)
once per Occupied-to-Vacant edge, the occupancy flags track that machine's
state, the number of invocations equals the number of occupancy changes,
and a cycle with unchanged readings emits no event for any slot. -/
theorem slot_event_per_change :
    (∀ (cis : List CycleInput) (s : ControllerState),
      publishCallsFor "slot1" (loopRun cis s).2 =
          (slotSpec s.slot1Occupied (cis.map fun ci => ci.readings.slot1IR)).2
        ∧ publishCallsFor "slot2" (loopRun cis s).2 =
          (slotSpec s.slot2Occupied (cis.map fun ci => ci.readings.slot2IR)).2
        ∧ (loopRun cis s).1.slot1Occupied =
          (slotSpec s.slot1Occupied (cis.map fun ci => ci.readings.slot1IR)).1
        ∧ (loopRun cis s).1.slot2Occupied =
          (slotSpec s.slot2Occupied (cis.map fun ci => ci.readings.slot2IR)).1
        ∧ (publishCallsFor "slot1" (loopRun cis s).2).length =
          countChanges s.slot1Occupied
            (cis.map fun ci => decide (ci.readings.slot1IR = Level.LOW))
        ∧ (publishCallsFor "slot2" (loopRun cis s).2).length =
          countChanges s.slot2Occupied
            (cis.map fun ci => decide (ci.readings.slot2IR = Level.LOW)))
    ∧ (∀ (c c' : Bool) (n n' : Int) (r : Readings) (s : ControllerState)
        (sid : String),
        publishCallsFor sid (loopStep ⟨c', n', r⟩ (loopStep ⟨c, n, r⟩ s).1).2 = []) := by
  constructor
  · intro cis s
    obtain ⟨h11, h12⟩ := loopRun_slot1 cis s
    obtain ⟨h21, h22⟩ := loopRun_slot2 cis s
    refine ⟨h11, h21, h12, h22, ?_, ?_⟩
    · rw [h11, slotSpec_length, List.map_map]; rfl
    · rw [h21, slotSpec_length, List.map_map]; rfl
  · intro c c' n n' r s sid
    rw [loopStep_stable]
    simp

/-- C9: the slot-indicator invariant — each slot LED is HIGH exactly when
its occupancy flag is set — holds after setup and after every sequence of
loop iterations from the setup state. -/
theorem led_matches_occupancy :
    ledMatches setupState
    ∧ ∀ (cis : List CycleInput), ledMatches (loopRun cis setupState).1 := by
  have h0 : ledMatches setupState := by decide
  exact ⟨h0, fun cis => loopRun_preserves_led cis setupState h0⟩

/-! ## C4, C10: the inbound-command callback -/

lemma messageHandler_dispatch (st : SystemState) (topic : String) (payload : List Char) :
    (messageHandler st topic payload).2 =
      (deserializeJson (payloadToString payload)).map docMessageString := by
  cases h : deserializeJson (payloadToString payload) with
  | none => simp [messageHandler, h]
  | some j => simp [messageHandler, h]

/-- C4 counterexample: the inbound payload `\x7b"foo":1\x7d` is valid JSON,
so deserialization succeeds and the command extension point is reached
(with a null command) — the payload is not discarded without dispatch. -/
theorem command_foo_payload_reaches_dispatch :
    (messageHandler { ctrl := setupState, serial := [] }
        "esp32/SmartParking/commands" ("\x7b\"foo\":1\x7d".toList)).2 = some none
    ∧ (messageHandler { ctrl := setupState, serial := [] }
        "esp32/SmartParking/commands" ("\x7b\"foo\":1\x7d".toList)).2 ≠ none := by
  have he : (messageHandler { ctrl := setupState, serial := [] }
      "esp32/SmartParking/commands" ("\x7b\"foo\":1\x7d".toList)).2 = some none := rfl
  exact ⟨he, by rw [he]; simp⟩

/-- C4 (amended): messageHandler decodes the payload as JSON; on decode
failure the message is silently discarded with no dispatch, and on decode
success the dispatch extension point is reached with `doc["message"]` —
which is null when the field is absent.  Payload `\x7b"message":"unlock"\x7d`
dispatches "unlock"; payload `\x7b"foo":1\x7d` decodes successfully and
reaches the dispatch point with a null command rather than being
discarded; a malformed payload is discarded with no dispatch. -/
theorem command_decode_and_dispatch :
    (∀ (st : SystemState) (topic : String) (payload : List Char),
      (deserializeJson (payloadToString payload) = none →
        (messageHandler st topic payload).2 = none)
      ∧ ∀ (j : Json), deserializeJson (payloadToString payload) = some j →
          (messageHandler st topic payload).2 = some (docMessageString j))
    ∧ (∀ (st : SystemState) (topic : String),
        (messageHandler st topic ("\x7b\"message\":\"unlock\"\x7d".toList)).2 =
          some (some "unlock"))
    ∧ (∀ (st : SystemState) (topic : String),
        (messageHandler st topic ("\x7b\"foo\":1\x7d".toList)).2 = some none)
    ∧ (∀ (st : SystemState) (topic : String),
        (messageHandler st topic ("unlock".toList)).2 = none) := by
  refine ⟨fun st topic payload => ⟨fun h => ?_, fun j h => ?_⟩,
    fun st topic => rfl, fun st topic => rfl, fun st topic => rfl⟩
  · rw [messageHandler_dispatch, h]; rfl
  · rw [messageHandler_dispatch, h]; rfl

/-- C10: messageHandler leaves every controller global untouched — gate
states, occupancy flags and LED levels are identical before and after the
callback, whatever the payload; its only effects are the serial log and
the decoded command handed to the dispatch point. -/
theorem message_handler_frame (st : SystemState) (topic : String) (payload : List Char) :
    (messageHandler st topic payload).1.ctrl = st.ctrl := by
  cases h : deserializeJson (payloadToString payload) with
  | none => simp [messageHandler, h]
  | some j => simp [messageHandler, h]

/-! ## C5, C7: the connectivity supervisor -/

lemma wifiWaitFuel_eq (status : Nat → Bool) (n : Nat) :
    ∀ (i fuel : Nat), n < fuel → status (i + n) = true →
      (∀ m, m < n → status (i + m) = false) →
      wifiWaitFuel status fuel i = some (List.replicate n (TraceEvent.delay 500)) := by
  induction n with
  | zero =>
      intro i fuel hf hs _
      obtain ⟨f, rfl⟩ : ∃ f, fuel = f + 1 := ⟨fuel - 1, by omega⟩
      simp only [wifiWaitFuel]
      simp [show status i = true by simpa using hs]
  | succ n ih =>
      intro i fuel hf hs hfail
      obtain ⟨f, rfl⟩ : ∃ f, fuel = f + 1 := ⟨fuel - 1, by omega⟩
      have h0 : status i = false := by simpa using hfail 0 (by omega)
      have hrec := ih (i + 1) f (by omega)
        (by rw [show i + 1 + n = i + (n + 1) by omega]; exact hs)
        (fun m hm => by
          rw [show i + 1 + m = i + (m + 1) by omega]
          exact hfail (m + 1) (by omega))
      simp only [wifiWaitFuel]
      simp [h0, hrec, List.replicate_succ]

lemma mqttWaitFuel_eq (result : Nat → Bool) (n : Nat) :
    ∀ (i fuel : Nat), n < fuel → result (i + n) = true →
      (∀ m, m < n → result (i + m) = false) →
      mqttWaitFuel result fuel i =
        some (List.flatten
            (List.replicate n [TraceEvent.connectAttempt false, TraceEvent.delay 1000]) ++
          [TraceEvent.connectAttempt true]) := by
  induction n with
  | zero =>
      intro i fuel hf hs _
      obtain ⟨f, rfl⟩ : ∃ f, fuel = f + 1 := ⟨fuel - 1, by omega⟩
      simp only [mqttWaitFuel]
      simp [show result i = true by simpa using hs]
  | succ n ih =>
      intro i fuel hf hs hfail
      obtain ⟨f, rfl⟩ : ∃ f, fuel = f + 1 := ⟨fuel - 1, by omega⟩
      have h0 : result i = false := by simpa using hfail 0 (by omega)
      have hrec := ih (i + 1) f (by omega)
        (by rw [show i + 1 + n = i + (n + 1) by omega]; exact hs)
        (fun m hm => by
          rw [show i + 1 + m = i + (m + 1) by omega]
          exact hfail (m + 1) (by omega))
      simp only [mqttWaitFuel]
      simp [h0, hrec, List.replicate_succ]

lemma connectAWS_eq (t : Transport) (n1 n2 : Nat)
    (h1 : t.wifiStatus n1 = true) (h1m : ∀ m, m < n1 → t.wifiStatus m = false)
    (h2 : t.connectResult n2 = true) (h2m : ∀ m, m < n2 → t.connectResult m = false)
    (fuel : Nat) (hf1 : n1 < fuel) (hf2 : n2 < fuel) :
    connectAWS t fuel = some (TraceEvent.wifiBegin ::
      List.replicate n1 (TraceEvent.delay 500) ++
      TraceEvent.installCA :: TraceEvent.installCert :: TraceEvent.installKey ::
      TraceEvent.setServer :: TraceEvent.setCallback ::
      (List.flatten
          (List.replicate n2 [TraceEvent.connectAttempt false, TraceEvent.delay 1000]) ++
        [TraceEvent.connectAttempt true]) ++
      [TraceEvent.subscribe AWS_IOT_SUBSCRIBE_TOPIC]) := by
  have hw := wifiWaitFuel_eq t.wifiStatus n1 0 fuel hf1 (by simpa using h1)
    (fun m hm => by simpa using h1m m hm)
  have hm := mqttWaitFuel_eq t.connectResult n2 0 fuel hf2 (by simpa using h2)
    (fun m hm => by simpa using h2m m hm)
  simp [connectAWS, hw, hm]

lemma wifiWaitFuel_success (status : Nat → Bool) :
    ∀ (fuel i : Nat) (tr : List TraceEvent),
      wifiWaitFuel status fuel i = some tr → ∃ n, status n = true := by
  intro fuel
  induction fuel with
  | zero => intro i tr h; simp [wifiWaitFuel] at h
  | succ f ih =>
      intro i tr h
      by_cases hs : status i
      · exact ⟨i, hs⟩
      · cases hw : wifiWaitFuel status f (i + 1) with
        | none => rw [wifiWaitFuel, if_neg hs, hw] at h; simp at h
        | some tr' => exact ih (i + 1) tr' hw

lemma mqttWaitFuel_success (result : Nat → Bool) :
    ∀ (fuel i : Nat) (tr : List TraceEvent),
      mqttWaitFuel result fuel i = some tr → ∃ n, result n = true := by
  intro fuel
  induction fuel with
  | zero => intro i tr h; simp [mqttWaitFuel] at h
  | succ f ih =>
      intro i tr h
      by_cases hs : result i
      · exact ⟨i, hs⟩
      · cases hw : mqttWaitFuel result f (i + 1) with
        | none => rw [mqttWaitFuel, if_neg hs, hw] at h; simp at h
        | some tr' => exact ih (i + 1) tr' hw

lemma connectAWS_success (t : Transport) (fuel : Nat) (tr : List TraceEvent)
    (h : connectAWS t fuel = some tr) :
    (∃ n, t.wifiStatus n = true) ∧ (∃ n, t.connectResult n = true) := by
  unfold connectAWS at h
  cases hw : wifiWaitFuel t.wifiStatus fuel 0 with
  | none => rw [hw] at h; simp at h
  | some wtr =>
      rw [hw] at h
      cases hm : mqttWaitFuel t.connectResult fuel 0 with
      | none => rw [hm] at h; simp at h
      | some mtr =>
          exact ⟨wifiWaitFuel_success _ fuel 0 wtr hw,
            mqttWaitFuel_success _ fuel 0 mtr hm⟩

/-- C5: whenever a cycle observes the session as not connected, the full
connect protocol runs before the transport poll and before any sensor read
or actuation of that cycle; its trace is exactly WiFi association with a
flat 500 ms delay per failed poll, then installation of the trust material,
then broker connect attempts with a flat 1000 ms delay per failure — each
loop running until first success with no retry bound — and it ends by
subscribing to the single inbound command topic. -/
theorem reconnect_protocol (t : Transport) (n1 n2 : Nat)
    (h1 : t.wifiStatus n1 = true) (h1m : ∀ m, m < n1 → t.wifiStatus m = false)
    (h2 : t.connectResult n2 = true) (h2m : ∀ m, m < n2 → t.connectResult m = false) :
    ∀ (ci : CycleInput) (s : ControllerState), ci.connected = false →
      loopCycle t (n1 + n2 + 1) ci s =
        some ((loopStep ci s).1,
          (TraceEvent.wifiBegin ::
            List.replicate n1 (TraceEvent.delay 500) ++
            TraceEvent.installCA :: TraceEvent.installCert :: TraceEvent.installKey ::
            TraceEvent.setServer :: TraceEvent.setCallback ::
            (List.flatten
                (List.replicate n2
                  [TraceEvent.connectAttempt false, TraceEvent.delay 1000]) ++
              [TraceEvent.connectAttempt true]) ++
            [TraceEvent.subscribe AWS_IOT_SUBSCRIBE_TOPIC]) ++ (loopStep ci s).2) := by
  intro ci s hc
  have hca := connectAWS_eq t n1 n2 h1 h1m h2 h2m (n1 + n2 + 1) (by omega) (by omega)
  simp [loopCycle, hc, hca]

/-- C5 witness: with WiFi succeeding at its second poll and the broker at
its third attempt, a disconnected cycle runs the whole protocol — one
500 ms wait, trust installation, two failed attempts with 1000 ms waits,
the successful attempt, the subscription — before the loop body. -/
theorem reconnect_protocol_witness :
    loopCycle ⟨fun n => decide (0 < n), fun n => decide (1 < n)⟩ 4
        ⟨false, 0, ⟨Level.HIGH, Level.HIGH, Level.HIGH, Level.HIGH⟩⟩ setupState =
      some ((loopStep ⟨false, 0, ⟨Level.HIGH, Level.HIGH, Level.HIGH, Level.HIGH⟩⟩
          setupState).1,
        (TraceEvent.wifiBegin ::
          List.replicate 1 (TraceEvent.delay 500) ++
          TraceEvent.installCA :: TraceEvent.installCert :: TraceEvent.installKey ::
          TraceEvent.setServer :: TraceEvent.setCallback ::
          (List.flatten
              (List.replicate 2
                [TraceEvent.connectAttempt false, TraceEvent.delay 1000]) ++
            [TraceEvent.connectAttempt true]) ++
          [TraceEvent.subscribe AWS_IOT_SUBSCRIBE_TOPIC]) ++
        (loopStep ⟨false, 0, ⟨Level.HIGH, Level.HIGH, Level.HIGH, Level.HIGH⟩⟩
          setupState).2) :=
  reconnect_protocol ⟨fun n => decide (0 < n), fun n => decide (1 < n)⟩ 1 2
    (by decide)
    (fun m hm => by
      have : m = 0 := by omega
      subst this; decide)
    (by decide)
    (fun m hm => by
      have : m = 0 ∨ m = 1 := by omega
      rcases this with h | h <;> subst h <;> decide)
    ⟨false, 0, ⟨Level.HIGH, Level.HIGH, Level.HIGH, Level.HIGH⟩⟩ setupState rfl

/-- C7: given a transport whose association and broker connect eventually
succeed, connectAWS terminates (some fuel makes both retry loops exit with
a trace); and for every transport, the routine returns a trace only when
both loops actually observed a success — the loops have no give-up path,
no iteration bound and no elapsed-time bound. -/
theorem connect_terminates (t : Transport)
    (hw : ∃ n, t.wifiStatus n = true) (hc : ∃ n, t.connectResult n = true) :
    (∃ (fuel : Nat) (tr : List TraceEvent), connectAWS t fuel = some tr)
    ∧ ∀ (u : Transport) (fuel : Nat) (tr : List TraceEvent),
        connectAWS u fuel = some tr →
          (∃ n, u.wifiStatus n = true) ∧ (∃ n, u.connectResult n = true) := by
  constructor
  · refine ⟨Nat.find hw + Nat.find hc + 1, _,
      connectAWS_eq t (Nat.find hw) (Nat.find hc) (Nat.find_spec hw)
        (fun m hm => ?_) (Nat.find_spec hc) (fun m hm => ?_)
        (Nat.find hw + Nat.find hc + 1) (by omega) (by omega)⟩
    · simpa using Nat.find_min hw hm
    · simpa using Nat.find_min hc hm
  · intro u fuel tr h
    exact connectAWS_success u fuel tr h

/-- C7 witness: the concrete transport whose WiFi succeeds from the second
poll and whose broker connect succeeds from the third attempt. -/
theorem connect_terminates_witness :
    (∃ (fuel : Nat) (tr : List TraceEvent),
      connectAWS ⟨fun n => decide (0 < n), fun n => decide (1 < n)⟩ fuel = some tr)
    ∧ ∀ (u : Transport) (fuel : Nat) (tr : List TraceEvent),
        connectAWS u fuel = some tr →
          (∃ n, u.wifiStatus n = true) ∧ (∃ n, u.connectResult n = true) :=
  connect_terminates ⟨fun n => decide (0 < n), fun n => decide (1 < n)⟩
    ⟨1, by decide⟩ ⟨2, by decide⟩

end SmartParking
